import Mathlib

/-
Verification development for the route-prefetching hook
(src/client/src/hooks/usePrefetchRoutes.ts).

The TypeScript module is embedded shallowly:
  * the module-level mutable set of already prefetched routes becomes an
    explicit PrefetchState threaded through the operations;
  * each dynamic-import loader is opaque; its eventual resolution is
    modelled by an outcome oracle (String to Bool, true meaning the
    returned promise resolves) and the then/catch continuation of
    prefetchRoute is folded into one atomic step;
  * the browser navigator and its (moz/webkit) connection object become
    Option-typed records;
  * the useEffect body of usePrefetchRoutes is a pure function from its
    inputs (auth snapshot, location, previous auth state, navigator) and
    the current PrefetchState to the list of scheduled actions plus the
    new previous-auth-state ref value; timers and idle callbacks are kept
    as data (delays in milliseconds) rather than executed;
  * the body of the setTimeout closure inside prefetchWithDelay, which
    re-checks shouldPrefetch when the timer fires, is embedded separately
    as fireWave.

JavaScript string primitives used by the source (String.prototype.split
with a one-character separator and String.prototype.startsWith) are
reimplemented over lists of characters so that they reduce in the kernel.
-/

/-- Embedding of the JavaScript single-character split on a list of
characters: split never returns the empty list, and an empty input yields
one empty field, matching String.prototype.split. -/
def splitOnChar (sep : Char) : List Char → List (List Char)
  | [] => [[]]
  | c :: cs =>
    let rest := splitOnChar sep cs
    if c = sep then [] :: rest
    else
      match rest with
      | [] => [[c]]
      | p :: ps => (c :: p) :: ps

/-- Embedding of JavaScript String.prototype.startsWith on character
lists; the first argument is the string, the second the pattern. -/
def startsWithL : List Char → List Char → Bool
  | _, [] => true
  | [], _ :: _ => false
  | c :: cs, p :: ps => c = p && startsWithL cs ps

/-- JavaScript split with a one-character separator, lifted to String. -/
def jsSplit (sep : Char) (s : String) : List String :=
  (splitOnChar sep s.data).map String.mk

/-- JavaScript startsWith lifted to String. -/
def jsStartsWith (s pat : String) : Bool :=
  startsWithL s.data pat.data

/-- Keys of routeComponentMap (usePrefetchRoutes.ts lines 18-37): the set
of route paths that have a registered loader. The loaders themselves are
opaque dynamic imports, so only the keys matter to the control flow. -/
def routeKeys : List String :=
  ["/", "/catalog", "/products", "/cart", "/wishlist", "/profile",
   "/checkout", "/login", "/register", "/verify-email", "/privacy-policy",
   "/admin", "/admin/users", "/admin/products", "/admin/categories",
   "/admin/promocodes", "/admin/orders", "/admin/support"]

/-- The module-level mutable state: prefetchedRoutes (line 5), the
process-wide set of route paths whose loader already resolved. It is
modelled as a list queried through List.contains. -/
structure PrefetchState where
  prefetchedRoutes : List String
deriving DecidableEq

/-- Observable result of one call to prefetchRoute: the new module state
together with whether the loader was invoked, whether the missing-loader
warning was emitted (console.warn, line 46), and whether the rejection
handler ran (console.error, line 56). -/
structure StepResult where
  state : PrefetchState
  invoked : Bool
  warned : Bool
  errored : Bool
deriving DecidableEq

/-- prefetchRoute (lines 39-58). The outcome oracle tells, for each
route, whether the loader promise resolves; the then branch (add to the
set, line 52) and the catch branch (log only, line 56) are folded into
the same atomic step. -/
def prefetchRoute (outcome : String → Bool) (s : PrefetchState)
    (route : String) : StepResult :=
  if s.prefetchedRoutes.contains route then
    { state := s, invoked := false, warned := false, errored := false }
  else if !(routeKeys.contains route) then
    { state := s, invoked := false, warned := true, errored := false }
  else if outcome route then
    { state := { prefetchedRoutes := route :: s.prefetchedRoutes },
      invoked := true, warned := false, errored := false }
  else
    { state := s, invoked := true, warned := false, errored := true }

/-- The navigator connection object (line 63): saveData flag and
effectiveType string. -/
structure Connection where
  saveData : Bool
  effectiveType : String
deriving DecidableEq

/-- The browser navigator; connection is the first non-null of
connection, mozConnection, webkitConnection (line 63), or none when all
are absent. -/
structure Navigator where
  connection : Option Connection
deriving DecidableEq

/-- shouldPrefetch (lines 60-77). The whole navigator is optional because
the source guards on typeof navigator being undefined (line 61) and
returns false in that case. -/
def shouldPrefetch : Option Navigator → Bool
  | none => false
  | some n =>
    match n.connection with
    | none => true
    | some c =>
      if c.saveData then false
      else if (["slow-2g", "2g"].contains c.effectiveType) then false
      else true

/-- Sequential execution of prefetchRoute over a list of routes (the
forEach body at lines 100-102, with each idle callback eventually
running): returns the final state and the sublist of routes whose loader
was actually invoked. -/
def runRoutes (outcome : String → Bool) (s : PrefetchState) :
    List String → PrefetchState × List String
  | [] => (s, [])
  | r :: rest =>
    let res := prefetchRoute outcome s r
    let tail := runRoutes outcome res.state rest
    (tail.1, (if res.invoked then [r] else []) ++ tail.2)

/-- Body of the setTimeout closure created by prefetchWithDelay
(lines 98-104): when the timer fires, shouldPrefetch is evaluated again
against the navigator state at firing time, and only if it allows
prefetching are the routes of the wave requested. -/
def fireWave (navAtFire : Option Navigator) (outcome : String → Bool)
    (s : PrefetchState) (routes : List String) : PrefetchState × List String :=
  if shouldPrefetch navAtFire then runRoutes outcome s routes
  else (s, [])

/-- The user object of the auth store: only the optional roles array is
consumed (line 91). -/
structure User where
  roles : Option (List String)
deriving DecidableEq

/-- The staff role list of line 92. -/
def staffRoles : List String := ["admin", "marketer", "consultant"]

/-- hasStaffRole (lines 91-93): user?.roles?.some(...) collapsed to a
boolean, with a missing user or missing roles array counting as false,
exactly as the undefined result of the optional chain is falsy in the
source. -/
def hasStaffRole : Option User → Bool
  | none => false
  | some u =>
    match u.roles with
    | none => false
    | some rs => rs.any (fun role => staffRoles.contains role)

/-- One scheduling action emitted by an evaluation of the effect body:
wave rs d is a prefetchWithDelay call for routes rs after d milliseconds;
idle rs w is a safeRequestIdleCallback whose callback calls prefetchRoute
directly on each route of rs and then, when w = some (rs2, d2),
additionally calls prefetchWithDelay rs2 d2 from inside the callback. -/
inductive SchedAction where
  | wave : List String → Nat → SchedAction
  | idle : List String → Option (List String × Nat) → SchedAction
deriving DecidableEq

/-- Inputs read by one evaluation of the useEffect body of
usePrefetchRoutes (lines 80-95): the auth snapshot, the current location
(optional, the source guards it with a fallback to the empty string), the
previousAuthState ref as left by the previous evaluation, and the
navigator. -/
structure EvalInput where
  isAuthenticated : Bool
  authInitialized : Bool
  user : Option User
  location : Option String
  previousAuthState : Option Bool
  nav : Option Navigator
deriving DecidableEq

/-- The seven admin routes, in the order they appear at lines 121-129,
143-151 and 159-165. -/
def adminRoutes : List String :=
  ["/admin", "/admin/products", "/admin/categories", "/admin/orders",
   "/admin/promocodes", "/admin/users", "/admin/support"]

/-- The useEffect body of usePrefetchRoutes (lines 86-170) as a pure
function: given the inputs and the current module state it returns the
list of scheduled actions in program order and the value stored into
previousAuthState.current when the evaluation finishes. The early return
at lines 87-89 emits nothing and leaves the ref untouched. -/
def evalScheduler (inp : EvalInput) (s : PrefetchState) :
    List SchedAction × Option Bool :=
  if !inp.authInitialized || !shouldPrefetch inp.nav then
    ([], inp.previousAuthState)
  else
    let hasStaff := hasStaffRole inp.user
    let isOnAdminPage := jsStartsWith (inp.location.getD "") "/admin"
    let authWaves :=
      if !inp.isAuthenticated then
        [SchedAction.wave ["/login", "/register"] 0,
         SchedAction.wave ["/catalog", "/products"] 1000,
         SchedAction.wave ["/privacy-policy"] 5000]
      else
        [SchedAction.wave ["/catalog", "/cart", "/wishlist", "/products"] 0,
         SchedAction.wave ["/profile", "/checkout"] 3000,
         SchedAction.wave ["/privacy-policy"] 5000] ++
        (if hasStaff then [SchedAction.wave adminRoutes 7000] else [])
    let loginBurst :=
      if inp.previousAuthState == some false && inp.isAuthenticated then
        [SchedAction.idle ["/cart", "/wishlist", "/profile"]
          (if hasStaff then some (adminRoutes, 1000) else none)]
      else []
    let adminBurst :=
      if isOnAdminPage && hasStaff && !(s.prefetchedRoutes.contains "/admin") then
        [SchedAction.idle adminRoutes none]
      else []
    (authWaves ++ loginBurst ++ adminBurst, some inp.isAuthenticated)

/-- Projection keeping only the prefetchWithDelay calls issued directly
by the auth branch of the effect body, with their route lists and
delays. -/
def wavesOf (as : List SchedAction) : List (List String × Nat) :=
  as.filterMap fun a =>
    match a with
    | SchedAction.wave rs d => some (rs, d)
    | SchedAction.idle _ _ => none

/-- The returnUrl matching logic of usePrefetchFromReturnUrl
(lines 186-203): strip everything from the first question mark and the
first hash sign, then match the normalized prefix; for an admin path,
split on the slashes and resolve one-segment and two-segment paths only.
Returns the route passed to prefetchRoute, or none when no branch
requests anything. -/
def matchReturnUrl (returnUrl : String) : Option String :=
  let normalizedUrl := (jsSplit '#' ((jsSplit '?' returnUrl).headD "")).headD ""
  if jsStartsWith normalizedUrl "/cart" then some "/cart"
  else if jsStartsWith normalizedUrl "/wishlist" then some "/wishlist"
  else if jsStartsWith normalizedUrl "/profile" then some "/profile"
  else if jsStartsWith normalizedUrl "/checkout" then some "/checkout"
  else if jsStartsWith normalizedUrl "/admin" then
    let segments := jsSplit '/' normalizedUrl
    if segments.length = 2 then some "/admin"
    else if segments.length = 3 then some ("/admin/" ++ segments.getD 2 "")
    else none
  else none

/-- The effect body of usePrefetchFromReturnUrl (lines 174-206) as a pure
function: gate on shouldPrefetch, read the optional returnUrl query
parameter, and when a branch matches issue one prefetchRoute call for the
matched route. Returns the new state and the list of routes passed to
prefetchRoute. -/
def runReturnUrl (nav : Option Navigator) (returnUrl : Option String)
    (outcome : String → Bool) (s : PrefetchState) : PrefetchState × List String :=
  if !shouldPrefetch nav then (s, [])
  else
    match returnUrl with
    | none => (s, [])
    | some u =>
      match matchReturnUrl u with
      | none => (s, [])
      | some r => ((prefetchRoute outcome s r).state, [r])

/-- Modelled from the spec: the environment reports a data-saver
preference enabled. Used to compare the network-gate claim, phrased in
terms of what the environment reports, against shouldPrefetch. -/
def navReportsSaveData : Option Navigator → Bool
  | some n =>
    match n.connection with
    | some c => c.saveData
    | none => false
  | none => false

/-- Modelled from the spec: the environment reports an effective
connection type in the slow set. Companion of navReportsSaveData for the
network-gate claim. -/
def navReportsSlow : Option Navigator → Bool
  | some n =>
    match n.connection with
    | some c => ["slow-2g", "2g"].contains c.effectiveType
    | none => false
  | none => false

/-- Helper: runRoutes never removes a route from the loaded set. -/
theorem runRoutes_mono (outcome : String → Bool) (routes : List String)
    (s : PrefetchState) (r2 : String)
    (h : s.prefetchedRoutes.contains r2 = true) :
    (runRoutes outcome s routes).1.prefetchedRoutes.contains r2 = true := by
  induction routes generalizing s with
  | nil => simpa [runRoutes] using h
  | cons r rest ih =>
    simp only [runRoutes]
    apply ih
    simp only [prefetchRoute]
    split
    · exact h
    · split
      · exact h
      · split
        · simp only [List.contains, List.elem] at h ⊢
          rw [h]
          cases r2 == r <;> simp
        · exact h

/-- Claim C1: prefetchRoute is a no-op on an already-loaded route, warns
without invoking a loader on an unregistered route, and otherwise invokes
the loader, marking the route loaded exactly when the loader resolves and
reporting the failure with no state change when it rejects. -/
theorem prefetchRoute_per_route_behavior (outcome : String → Bool)
    (s : PrefetchState) (route : String) :
    (s.prefetchedRoutes.contains route = true →
      prefetchRoute outcome s route =
        { state := s, invoked := false, warned := false, errored := false }) ∧
    (s.prefetchedRoutes.contains route = false →
      routeKeys.contains route = false →
      prefetchRoute outcome s route =
        { state := s, invoked := false, warned := true, errored := false }) ∧
    (s.prefetchedRoutes.contains route = false →
      routeKeys.contains route = true → outcome route = true →
      prefetchRoute outcome s route =
        { state := { prefetchedRoutes := route :: s.prefetchedRoutes },
          invoked := true, warned := false, errored := false }) ∧
    (s.prefetchedRoutes.contains route = false →
      routeKeys.contains route = true → outcome route = false →
      prefetchRoute outcome s route =
        { state := s, invoked := true, warned := false, errored := true }) := by
  refine ⟨fun h1 => ?_, fun h1 h2 => ?_, fun h1 h2 h3 => ?_, fun h1 h2 h3 => ?_⟩ <;>
    simp_all [prefetchRoute]

/-- Witness for claim C1 at concrete inputs covering all four branches. -/
theorem prefetchRoute_per_route_behavior_witness :
    prefetchRoute (fun _ => true) ⟨["/cart"]⟩ "/cart" =
      { state := ⟨["/cart"]⟩, invoked := false, warned := false, errored := false } ∧
    prefetchRoute (fun _ => true) ⟨[]⟩ "/nope" =
      { state := ⟨[]⟩, invoked := false, warned := true, errored := false } ∧
    prefetchRoute (fun _ => true) ⟨[]⟩ "/cart" =
      { state := ⟨["/cart"]⟩, invoked := true, warned := false, errored := false } ∧
    prefetchRoute (fun _ => false) ⟨[]⟩ "/cart" =
      { state := ⟨[]⟩, invoked := true, warned := false, errored := true } :=
  ⟨(prefetchRoute_per_route_behavior _ _ _).1 (by decide),
   (prefetchRoute_per_route_behavior _ _ _).2.1 (by decide) (by decide),
   (prefetchRoute_per_route_behavior _ _ _).2.2.1 (by decide) (by decide) rfl,
   (prefetchRoute_per_route_behavior _ _ _).2.2.2 (by decide) (by decide) rfl⟩

/-- Claim C2: for a registered route whose loader resolves, two
successive calls to prefetchRoute starting from a state where the route
is not yet loaded invoke the loader exactly once (the first call invokes,
the second does not), and once a route is in the loaded set the loader is
never invoked for it again. -/
theorem prefetchRoute_idempotent (outcome : String → Bool)
    (s : PrefetchState) (route : String)
    (hk : routeKeys.contains route = true) :
    (outcome route = true → s.prefetchedRoutes.contains route = false →
      (prefetchRoute outcome s route).invoked = true ∧
      (prefetchRoute outcome (prefetchRoute outcome s route).state route).invoked
        = false) ∧
    (s.prefetchedRoutes.contains route = true →
      (prefetchRoute outcome s route).invoked = false) := by
  constructor
  · intro ho hs
    constructor
    · simp_all [prefetchRoute]
    · have hstate : (prefetchRoute outcome s route).state =
          { prefetchedRoutes := route :: s.prefetchedRoutes } := by
        simp_all [prefetchRoute]
      rw [hstate]
      simp [prefetchRoute]
  · intro hs
    simp_all [prefetchRoute]

/-- Witness for claim C2 with a fresh state and the /catalog route. -/
theorem prefetchRoute_idempotent_witness :
    ((prefetchRoute (fun _ => true) ⟨[]⟩ "/catalog").invoked = true ∧
      (prefetchRoute (fun _ => true)
        (prefetchRoute (fun _ => true) ⟨[]⟩ "/catalog").state "/catalog").invoked
          = false) ∧
    ((prefetchRoute (fun _ => true) ⟨["/catalog"]⟩ "/catalog").invoked = false) :=
  ⟨(prefetchRoute_idempotent (fun _ => true) ⟨[]⟩ "/catalog" (by decide)).1
      rfl (by decide),
   (prefetchRoute_idempotent (fun _ => true) ⟨["/catalog"]⟩ "/catalog"
      (by decide)).2 (by decide)⟩

/-- Helper: membership in a cons cell of a string list, phrased through
List.contains. -/
theorem contains_cons_elim (l : List String) (a b : String)
    (h : (a :: l).contains b = true) : b = a ∨ l.contains b = true := by
  simp only [List.contains, List.elem] at h ⊢
  cases hbe : b == a with
  | true => exact Or.inl (beq_iff_eq.mp hbe)
  | false =>
    rw [hbe] at h
    exact Or.inr h

/-- Claim C8: the loaded set is insertion-only. prefetchRoute never
removes a member; a route enters the set only as the requested route of a
call whose loader is registered and resolves; and a rejected load leaves
the whole state unchanged, so a failure is not remembered. The lifted
conjunct extends no-removal to any sequence of prefetchRoute calls. -/
theorem loadedSet_insertion_only (outcome : String → Bool)
    (s : PrefetchState) (route r2 : String) :
    (s.prefetchedRoutes.contains r2 = true →
      (prefetchRoute outcome s route).state.prefetchedRoutes.contains r2 = true) ∧
    ((prefetchRoute outcome s route).state.prefetchedRoutes.contains r2 = true →
      s.prefetchedRoutes.contains r2 = true ∨
        (r2 = route ∧ routeKeys.contains route = true ∧ outcome route = true)) ∧
    (outcome route = false → (prefetchRoute outcome s route).state = s) ∧
    (∀ routes : List String, s.prefetchedRoutes.contains r2 = true →
      (runRoutes outcome s routes).1.prefetchedRoutes.contains r2 = true) := by
  refine ⟨fun h => ?_, fun h => ?_, fun h => ?_,
    fun routes h => runRoutes_mono outcome routes s r2 h⟩
  · simp only [prefetchRoute]
    split
    · exact h
    · split
      · exact h
      · split
        · simp only [List.contains, List.elem] at h ⊢
          rw [h]
          cases r2 == route <;> simp
        · exact h
  · simp only [prefetchRoute] at h
    split at h
    · exact Or.inl h
    · split at h
      · exact Or.inl h
      · rename_i hkey
        split at h
        · rename_i hout
          rcases contains_cons_elim _ _ _ h with he | hin2
          · exact Or.inr ⟨he, by simpa using hkey, hout⟩
          · exact Or.inl hin2
        · exact Or.inl h
  · simp only [prefetchRoute]
    split
    · rfl
    · split
      · rfl
      · split
        · rename_i hout
          rw [h] at hout
          cases hout
        · rfl

/-- Witness for claim C8 at concrete inputs: monotone insertion for a
successful load and unchanged state for a rejected load. -/
theorem loadedSet_insertion_only_witness :
    ((prefetchRoute (fun _ => true) ⟨["/cart"]⟩ "/profile").state.prefetchedRoutes.contains
        "/cart" = true) ∧
    ((prefetchRoute (fun _ => false) ⟨["/cart"]⟩ "/profile").state = ⟨["/cart"]⟩) ∧
    ((runRoutes (fun _ => true) ⟨["/cart"]⟩ ["/profile", "/wishlist"]).1.prefetchedRoutes.contains
        "/cart" = true) :=
  ⟨(loadedSet_insertion_only (fun _ => true) ⟨["/cart"]⟩ "/profile" "/cart").1
      (by decide),
   (loadedSet_insertion_only (fun _ => false) ⟨["/cart"]⟩ "/profile" "/cart").2.2.1
      rfl,
   (loadedSet_insertion_only (fun _ => true) ⟨["/cart"]⟩ "/profile" "/cart").2.2.2
      ["/profile", "/wishlist"] (by decide)⟩

/-- Claim C10: the timer body of prefetchWithDelay re-checks the network
gate when the delay elapses; if the gate denies prefetching at that
moment, the wave requests nothing and the state is unchanged, even for a
wave that was scheduled while the gate passed (the scheduling-time gate
value does not appear in the firing behaviour). -/
theorem fireWave_regates_at_fire_time (navSched navFire : Option Navigator)
    (inp : EvalInput) (s sFire : PrefetchState) (outcome : String → Bool)
    (rs : List String) (d : Nat)
    (_hSched : shouldPrefetch navSched = true)
    (_hNav : inp.nav = navSched)
    (_hMem : SchedAction.wave rs d ∈ (evalScheduler inp s).1)
    (hFire : shouldPrefetch navFire = false) :
    fireWave navFire outcome sFire rs = (sFire, []) := by
  simp [fireWave, hFire]

/-- Witness for claim C10: the login wave scheduled under a permissive
navigator fires under a data-saver navigator and requests nothing. -/
theorem fireWave_regates_at_fire_time_witness :
    fireWave (some ⟨some ⟨true, "4g"⟩⟩) (fun _ => true) ⟨[]⟩
      ["/login", "/register"] = (⟨[]⟩, []) :=
  fireWave_regates_at_fire_time (some ⟨none⟩) (some ⟨some ⟨true, "4g"⟩⟩)
    ⟨false, true, none, none, none, some ⟨none⟩⟩ ⟨[]⟩ ⟨[]⟩ (fun _ => true)
    ["/login", "/register"] 0 (by decide) rfl (by decide) (by decide)

/-- Counterexample to claim C3: when the navigator itself is undefined,
shouldPrefetch returns false although the environment reports neither a
data-saver preference nor a slow effective connection type, so the gate
does not deny prefetching exactly on those two conditions and absence of
connection information does not default to allowed. -/
theorem shouldPrefetch_undefined_navigator_counterexample :
    shouldPrefetch none = false ∧
    navReportsSaveData none = false ∧
    navReportsSlow none = false := by
  exact ⟨rfl, rfl, rfl⟩

/-- Claim C3 amended: with a defined navigator, the gate denies
prefetching exactly when the connection reports data-saver or an
effective type in the slow set; a defined navigator without a connection
object is allowed; an undefined navigator is denied; and whenever
data-saver is reported the scheduler evaluation emits no action at all,
regardless of auth state. -/
theorem shouldPrefetch_network_gate (n : Navigator) (inp : EvalInput)
    (s : PrefetchState) :
    (shouldPrefetch (some n) = false ↔
      (navReportsSaveData (some n) || navReportsSlow (some n)) = true) ∧
    shouldPrefetch (some { connection := none }) = true ∧
    shouldPrefetch none = false ∧
    (navReportsSaveData inp.nav = true → (evalScheduler inp s).1 = []) := by
  refine ⟨?_, rfl, rfl, fun h => ?_⟩
  · cases hc : n.connection with
    | none => simp [shouldPrefetch, navReportsSaveData, navReportsSlow, hc]
    | some c =>
      cases hsd : c.saveData with
      | true => simp [shouldPrefetch, navReportsSaveData, navReportsSlow, hc, hsd]
      | false =>
        cases hslow : (["slow-2g", "2g"].contains c.effectiveType) with
        | true =>
          simp [shouldPrefetch, navReportsSaveData, navReportsSlow, hc, hsd, hslow]
          tauto
        | false =>
          simp [shouldPrefetch, navReportsSaveData, navReportsSlow, hc, hsd, hslow]
          tauto
  · have hgate : shouldPrefetch inp.nav = false := by
      cases hnav : inp.nav with
      | none => rfl
      | some n2 =>
        rw [hnav] at h
        cases hc : n2.connection with
        | none => simp [navReportsSaveData, hc] at h
        | some c =>
          simp only [navReportsSaveData, hc] at h
          simp [shouldPrefetch, hc, h]
    simp [evalScheduler, hgate]

/-- Witness for claim C3 amended: under a data-saver connection the
scheduler emits nothing for an authenticated staff user. -/
theorem shouldPrefetch_network_gate_witness :
    (evalScheduler
      ⟨true, true, some ⟨some ["admin"]⟩, some "/admin", some false,
        some ⟨some ⟨true, "4g"⟩⟩⟩ ⟨[]⟩).1 = [] :=
  (shouldPrefetch_network_gate ⟨some ⟨true, "4g"⟩⟩
    ⟨true, true, some ⟨some ["admin"]⟩, some "/admin", some false,
      some ⟨some ⟨true, "4g"⟩⟩⟩ ⟨[]⟩).2.2.2 rfl

/-- Counterexample to claim C9: an evaluation stopped by the early
return (here authInitialized = false) leaves previousAuthState at its old
value instead of updating it to the current authentication flag. -/
theorem prevAuth_early_return_counterexample :
    (evalScheduler ⟨false, false, none, none, some true, some ⟨none⟩⟩ ⟨[]⟩).2
      = some true ∧
    (⟨false, false, none, none, some true, some ⟨none⟩⟩ : EvalInput).isAuthenticated
      = false := by
  exact ⟨rfl, rfl⟩

/-- Claim C9 amended: an evaluation that passes the initialization and
network gates stores the current authentication flag into
previousAuthState, while an evaluation stopped by the early return leaves
previousAuthState unchanged. -/
theorem prevAuth_updated_at_end (inp : EvalInput) (s : PrefetchState) :
    (inp.authInitialized = true → shouldPrefetch inp.nav = true →
      (evalScheduler inp s).2 = some inp.isAuthenticated) ∧
    (inp.authInitialized = false ∨ shouldPrefetch inp.nav = false →
      (evalScheduler inp s).2 = inp.previousAuthState) := by
  constructor
  · intro hInit hNet
    simp [evalScheduler, hInit, hNet]
  · intro h
    rcases h with h | h <;> simp [evalScheduler, h]

/-- Witness for claim C9 amended: a gated-in evaluation records the
current flag; a gated-out one keeps the old value. -/
theorem prevAuth_updated_at_end_witness :
    (evalScheduler ⟨true, true, none, none, none, some ⟨none⟩⟩ ⟨[]⟩).2
      = some true ∧
    (evalScheduler ⟨true, true, none, none, some false, none⟩ ⟨[]⟩).2
      = some false :=
  ⟨(prevAuth_updated_at_end ⟨true, true, none, none, none, some ⟨none⟩⟩ ⟨[]⟩).1
      rfl rfl,
   (prevAuth_updated_at_end ⟨true, true, none, none, some false, none⟩ ⟨[]⟩).2
      (Or.inr rfl)⟩

/-- Claim C4: past the initialization and network gates, the
prefetchWithDelay waves issued directly by the auth branch are exactly
the specified ones: login and register at once, catalog and products
after 1000 ms, privacy policy after 5000 ms when unauthenticated;
catalog, cart, wishlist and products at once, profile and checkout after
3000 ms, privacy policy after 5000 ms when authenticated, plus the seven
admin routes after 7000 ms exactly for staff users. -/
theorem evalScheduler_auth_waves (inp : EvalInput) (s : PrefetchState)
    (hInit : inp.authInitialized = true)
    (hNet : shouldPrefetch inp.nav = true) :
    wavesOf (evalScheduler inp s).1 =
      if inp.isAuthenticated then
        [(["/catalog", "/cart", "/wishlist", "/products"], 0),
         (["/profile", "/checkout"], 3000),
         (["/privacy-policy"], 5000)] ++
        (if hasStaffRole inp.user then [(adminRoutes, 7000)] else [])
      else
        [(["/login", "/register"], 0),
         (["/catalog", "/products"], 1000),
         (["/privacy-policy"], 5000)] := by
  simp only [evalScheduler, hInit, hNet, Bool.not_true, Bool.or_self,
    Bool.false_or, if_neg (by simp : ¬(false = true))]
  cases hAuth : inp.isAuthenticated <;>
    cases hStaff : hasStaffRole inp.user <;>
      cases hPrev : (inp.previousAuthState == some false) <;>
        cases hAdmin : jsStartsWith (inp.location.getD "") "/admin" <;>
          cases hLoaded : s.prefetchedRoutes.contains "/admin" <;>
            simp [wavesOf, hAuth, hStaff, hPrev, hAdmin, hLoaded]

/-- Witness for claim C4: an authenticated staff user past both gates
gets the three authenticated waves plus the admin wave at 7000 ms. -/
theorem evalScheduler_auth_waves_witness :
    wavesOf (evalScheduler
      ⟨true, true, some ⟨some ["admin"]⟩, none, none, some ⟨none⟩⟩ ⟨[]⟩).1 =
      [(["/catalog", "/cart", "/wishlist", "/products"], 0),
       (["/profile", "/checkout"], 3000),
       (["/privacy-policy"], 5000),
       (adminRoutes, 7000)] := by
  rw [evalScheduler_auth_waves
    ⟨true, true, some ⟨some ["admin"]⟩, none, none, some ⟨none⟩⟩ ⟨[]⟩ rfl rfl]
  decide

/-- Claim C5: when an evaluation past both gates sees a false-to-true
authentication transition, the scheduled actions contain the idle burst
that requests cart, wishlist and profile at the next idle point and, for
a staff user, additionally schedules the seven admin routes after
1000 ms; no hypothesis about the current location is needed. -/
theorem evalScheduler_login_burst (inp : EvalInput) (s : PrefetchState)
    (hInit : inp.authInitialized = true)
    (hNet : shouldPrefetch inp.nav = true)
    (hPrev : inp.previousAuthState = some false)
    (hAuth : inp.isAuthenticated = true) :
    SchedAction.idle ["/cart", "/wishlist", "/profile"]
        (if hasStaffRole inp.user then some (adminRoutes, 1000) else none)
      ∈ (evalScheduler inp s).1 := by
  simp only [evalScheduler, hInit, hNet, hPrev, hAuth]
  simp

/-- Witness for claim C5: a staff user logging in gets the idle burst
with the delayed admin wave. -/
theorem evalScheduler_login_burst_witness :
    SchedAction.idle ["/cart", "/wishlist", "/profile"]
        (some (adminRoutes, 1000))
      ∈ (evalScheduler
          ⟨true, true, some ⟨some ["marketer"]⟩, none, some false,
            some ⟨none⟩⟩ ⟨[]⟩).1 := by
  have h := evalScheduler_login_burst
    ⟨true, true, some ⟨some ["marketer"]⟩, none, some false, some ⟨none⟩⟩
    ⟨[]⟩ rfl rfl rfl rfl
  simpa using h

/-- Claim C6: when an evaluation past both gates runs with the location
on an admin-prefixed path, a staff user, and the admin route not yet in
the loaded set, the scheduled actions contain the idle burst that
requests all seven admin routes with no extra fixed delay. -/
theorem evalScheduler_admin_burst (inp : EvalInput) (s : PrefetchState)
    (hInit : inp.authInitialized = true)
    (hNet : shouldPrefetch inp.nav = true)
    (hLoc : jsStartsWith (inp.location.getD "") "/admin" = true)
    (hStaff : hasStaffRole inp.user = true)
    (hNotLoaded : s.prefetchedRoutes.contains "/admin" = false) :
    SchedAction.idle adminRoutes none ∈ (evalScheduler inp s).1 := by
  simp only [evalScheduler, hInit, hNet, hLoc, hStaff, hNotLoaded]
  simp

/-- Witness for claim C6: a consultant on the admin users page with an
empty loaded set gets the immediate admin idle burst. -/
theorem evalScheduler_admin_burst_witness :
    SchedAction.idle adminRoutes none ∈
      (evalScheduler
        ⟨true, true, some ⟨some ["consultant"]⟩, some "/admin/users", none,
          some ⟨none⟩⟩ ⟨[]⟩).1 :=
  evalScheduler_admin_burst
    ⟨true, true, some ⟨some ["consultant"]⟩, some "/admin/users", none,
      some ⟨none⟩⟩ ⟨[]⟩ rfl rfl (by decide) (by decide) rfl

/-- Claim C7: the return-URL prefetcher strips query and fragment
suffixes and matches the known prefixes: the admin users example resolves
to the two-segment admin route, the bare admin example to the dashboard
route, and an unknown path to no request; in general, past the network
gate, the routes it passes to prefetchRoute are exactly the optional
match result, so at most one deferred prefetch is issued. -/
theorem returnUrl_matching :
    matchReturnUrl "/admin/users?x=1" = some "/admin/users" ∧
    matchReturnUrl "/admin" = some "/admin" ∧
    matchReturnUrl "/unknown/path" = none ∧
    (∀ (nav : Option Navigator) (u : String) (outcome : String → Bool)
        (s : PrefetchState), shouldPrefetch nav = true →
      (runReturnUrl nav (some u) outcome s).2 = (matchReturnUrl u).toList) := by
  refine ⟨by decide, by decide, by decide, fun nav u outcome s hNet => ?_⟩
  simp only [runReturnUrl, hNet, Bool.not_true]
  cases hm : matchReturnUrl u <;> simp [hm]

/-- Witness for claim C7: under a permissive navigator the admin users
return URL issues exactly one prefetch request, for /admin/users. -/
theorem returnUrl_matching_witness :
    (runReturnUrl (some ⟨none⟩) (some "/admin/users?x=1") (fun _ => true)
      ⟨[]⟩).2 = ["/admin/users"] := by
  have h := returnUrl_matching.2.2.2 (some ⟨none⟩) "/admin/users?x=1"
    (fun _ => true) ⟨[]⟩ rfl
  simpa using h
